import Mathlib

/-!
Verification of the standalone-cluster configuration resolver
(`cli/cmd/plugin/standalone-cluster/config/config.go`).

The Go code is shallowly embedded: the process environment, the explicit
argument map, the filesystem and the home-directory lookup are explicit
inputs; `map` lookups become `Option`-valued functions; the reflection
loop over string fields becomes a fold over an explicit field table in
struct-declaration order; Go's `filepath.Clean`/`filepath.Join` (Unix
flavour) are reproduced on character lists.
-/

set_option autoImplicit false

namespace StandaloneConfig

/-! ## Go `path/filepath` model (Unix) -/

/-- Split a character list on `'/'`, keeping empty components
(the component view used by Go's `filepath.Clean`). -/
def splitSlashAux (cur : List Char) : List Char → List (List Char)
  | [] => [cur.reverse]
  | c :: cs =>
    if c = '/' then cur.reverse :: splitSlashAux [] cs
    else splitSlashAux (c :: cur) cs

/-- One step of Go `filepath.Clean`'s component elimination; the
accumulator holds the output components in reverse order. -/
def cleanStep (rooted : Bool) (acc : List (List Char)) (c : List Char) :
    List (List Char) :=
  if c = [] ∨ c = ['.'] then acc
  else if c = ['.', '.'] then
    match acc with
    | [] => if rooted then [] else [c]
    | last :: rest => if last = ['.', '.'] then c :: acc else rest
  else c :: acc

/-- Join components with `'/'` separators. -/
def joinSlash : List (List Char) → List Char
  | [] => []
  | [w] => w
  | w :: ws => w ++ '/' :: joinSlash ws

/-- Go `filepath.Clean` for Unix paths: collapse repeated separators,
drop `.` components, resolve `..` against preceding components (dropping
`..` at the root), return `"."` for an empty result. -/
def goClean (path : String) : String :=
  match path.data with
  | [] => "."
  | c :: cs =>
    let rooted := c = '/'
    let comps := splitSlashAux [] (c :: cs)
    let out := (comps.foldl (cleanStep rooted) []).reverse
    let s := joinSlash out
    if rooted then ('/' :: s).asString
    else if s = [] then "." else s.asString

/-- Go `filepath.Join` restricted to two elements: empty elements are
skipped, the rest are joined with `'/'` and cleaned; all-empty input
yields `""`. -/
def filepathJoin (a b : String) : String :=
  if a = "" then (if b = "" then "" else goClean b)
  else goClean (a ++ "/" ++ b)

/-! ## `sanatizeKubeconfigPath`

The Go function runs `usr, _ := user.Current()` and then reads
`usr.HomeDir`.  The lookup result is passed in as `home : Option String`
(`none` = `user.Current` returned an error, so `usr` is `nil`).  In that
case the field access `usr.HomeDir` dereferences a nil pointer; the
resulting panic is modelled as the `none` result. -/

def sanatizeKubeconfigPath (home : Option String) (path : String) :
    Option String :=
  match path.data with
  | '~' :: '/' :: rest =>
    match home with
    | none => none
    | some h => some (filepathJoin (filepathJoin "" h) rest.asString)
  | _ => some (filepathJoin "" path)

/-! ## `fieldNameToEnvName` -/

/-- ASCII uppercase test, matching the regex character class `[A-Z]`. -/
def isUpperAZ (c : Char) : Bool := 65 ≤ c.toNat && c.toNat ≤ 90

/-- The matches of the Go regex `[A-Z][^A-Z]*` against a character list:
each maximal run starting at an uppercase letter and extending over
non-uppercase characters; characters before the first uppercase letter
are skipped.  `cur` holds the (reversed) word being built. -/
def upperWordsAux (cur : List Char) : List Char → List (List Char)
  | [] => if cur = [] then [] else [cur.reverse]
  | c :: cs =>
    if isUpperAZ c then
      if cur = [] then upperWordsAux [c] cs
      else cur.reverse :: upperWordsAux [c] cs
    else
      if cur = [] then upperWordsAux [] cs
      else upperWordsAux (c :: cur) cs

def upperWords (s : String) : List String :=
  (upperWordsAux [] s.data).map List.asString

/-- Go `strings.ToUpper` on the ASCII range. -/
def goToUpper (s : String) : String :=
  (s.data.map fun c =>
    if 97 ≤ c.toNat && c.toNat ≤ 122 then Char.ofNat (c.toNat - 32)
    else c).asString

/-- `fieldNameToEnvName` from `config.go`: split the yaml field name with
regex `[A-Z][^A-Z]*`, uppercase every word, and join the words after the
fixed `"TANZU"` token with underscores. -/
def fieldNameToEnvName (field : String) : String :=
  String.intercalate "_" ("TANZU" :: (upperWords field).map goToUpper)

/-! ## Data model

`LocalClusterConfig` from `config.go`.  The two `map[string]interface{}`
configuration bags and Go's yaml document values are modelled by the
`Yaml` tree below; `PortsToForward` is a list of `PortMap`. -/

/-- Modelled from the spec: the on-disk format is a structured text
document of scalars, sequences and string-keyed mappings (the yaml
library's text layer is third-party code, not in this repository, so
files are modelled at the document-tree level). -/
inductive Yaml where
  | str : String → Yaml
  | int : Int → Yaml
  | bool : Bool → Yaml
  | null : Yaml
  | seq : List Yaml → Yaml
  | map : List (String × Yaml) → Yaml

/-- `PortMap` from `config.go`: a host port / container port pair. -/
structure PortMap where
  HostPort : Int
  ContainerPort : Int

/-- `LocalClusterConfig` from `config.go`; fields in declaration order,
with their yaml serialization keys equal to the field names except
`CNIConfiguration`, whose yaml key is `CniConfiguration`. -/
structure LocalClusterConfig where
  ClusterName : String
  KubeconfigPath : String
  NodeImage : String
  Provider : String
  ProviderConfiguration : List (String × Yaml)
  Cni : String
  CNIConfiguration : List (String × Yaml)
  PodCidr : String
  ServiceCidr : String
  TkrLocation : String
  PortsToForward : List PortMap
  Tty : String

/-- The zero value of `LocalClusterConfig` (Go's `&LocalClusterConfig{}`). -/
def emptyConfig : LocalClusterConfig :=
  ⟨"", "", "", "", [], "", [], "", "", "", [], ""⟩

/-- `defaultConfigValues` from `config.go`, keyed by yaml field name. -/
def defaultConfigValues (key : String) : Option String :=
  if key = "TkrLocation" then some "projects.registry.vmware.com/tce/tkr:v1.21.5"
  else if key = "Provider" then some "kind"
  else if key = "Cni" then some "antrea"
  else if key = "PodCidr" then some "10.244.0.0/16"
  else if key = "ServiceCidr" then some "10.96.0.0/16"
  else if key = "Tty" then some "true"
  else none

/-! ## Yaml (un)marshalling of `LocalClusterConfig`

Modelled from the spec: `yaml.Marshal`/`yaml.Unmarshal` of the third-party
yaml library, specialised to the struct's yaml tags — a struct marshals to
a mapping holding every tagged field in declaration order; unmarshalling
reads each tag's key from the mapping, leaves the zero value when the key
is absent or null, and fails on a value of the wrong shape. -/

def marshalPortMap (p : PortMap) : Yaml :=
  .map [("HostPort", .int p.HostPort), ("ContainerPort", .int p.ContainerPort)]

def marshalConfig (c : LocalClusterConfig) : Yaml :=
  .map [("ClusterName", .str c.ClusterName),
        ("KubeconfigPath", .str c.KubeconfigPath),
        ("NodeImage", .str c.NodeImage),
        ("Provider", .str c.Provider),
        ("ProviderConfiguration", .map c.ProviderConfiguration),
        ("Cni", .str c.Cni),
        ("CniConfiguration", .map c.CNIConfiguration),
        ("PodCidr", .str c.PodCidr),
        ("ServiceCidr", .str c.ServiceCidr),
        ("TkrLocation", .str c.TkrLocation),
        ("PortsToForward", .seq (c.PortsToForward.map marshalPortMap)),
        ("Tty", .str c.Tty)]

/-- First binding of a key in a yaml mapping. -/
def yamlLookup : List (String × Yaml) → String → Option Yaml
  | [], _ => none
  | (k, v) :: rest, key => if k = key then some v else yamlLookup rest key

/-- Decode a string struct field: absent or null keys keep the zero
value `""`; non-string values are a type error. -/
def decodeStrField : Option Yaml → Option String
  | none => some ""
  | some (.str s) => some s
  | some .null => some ""
  | some _ => none

/-- Decode an int struct field: absent or null keys keep the zero value. -/
def decodeIntField : Option Yaml → Option Int
  | none => some 0
  | some (.int n) => some n
  | some .null => some 0
  | some _ => none

/-- Decode a `map[string]interface{}` bag field. -/
def decodeBagField : Option Yaml → Option (List (String × Yaml))
  | none => some []
  | some (.map kvs) => some kvs
  | some .null => some []
  | some _ => none

def decodePortMap : Yaml → Option PortMap
  | .map kvs => do
    let hp ← decodeIntField (yamlLookup kvs "HostPort")
    let cp ← decodeIntField (yamlLookup kvs "ContainerPort")
    pure ⟨hp, cp⟩
  | .null => some ⟨0, 0⟩
  | _ => none

def decodePortsField : Option Yaml → Option (List PortMap)
  | none => some []
  | some (.seq xs) => xs.mapM decodePortMap
  | some .null => some []
  | some _ => none

/-- `yaml.Unmarshal` into a fresh `LocalClusterConfig`: a null document
leaves the zero value; a mapping is decoded field by field; any other
document shape is a type error. -/
def unmarshalConfig : Yaml → Option LocalClusterConfig
  | .null => some emptyConfig
  | .map kvs => do
    let cn ← decodeStrField (yamlLookup kvs "ClusterName")
    let kp ← decodeStrField (yamlLookup kvs "KubeconfigPath")
    let ni ← decodeStrField (yamlLookup kvs "NodeImage")
    let pv ← decodeStrField (yamlLookup kvs "Provider")
    let pc ← decodeBagField (yamlLookup kvs "ProviderConfiguration")
    let cni ← decodeStrField (yamlLookup kvs "Cni")
    let cc ← decodeBagField (yamlLookup kvs "CniConfiguration")
    let pod ← decodeStrField (yamlLookup kvs "PodCidr")
    let svc ← decodeStrField (yamlLookup kvs "ServiceCidr")
    let tkr ← decodeStrField (yamlLookup kvs "TkrLocation")
    let ports ← decodePortsField (yamlLookup kvs "PortsToForward")
    let tty ← decodeStrField (yamlLookup kvs "Tty")
    pure ⟨cn, kp, ni, pv, pc, cni, cc, pod, svc, tkr, ports, tty⟩
  | _ => none

/-! ## Filesystem model and the persistence helpers -/

/-- What the filesystem holds at a path: nothing, a regular file with a
parsed yaml document, or a directory. -/
inductive FsEntry where
  | missing
  | file : Yaml → FsEntry
  | dir : FsEntry

abbrev Fs := String → FsEntry

inductive RenderError where
  | alreadyExists : String → RenderError

inductive LoadError where
  | readError
  | parseError : String → LoadError

/-- `RenderConfigToFile` from `config.go`: probe the path with
`os.ReadDir` and refuse unless that fails with not-exist (a present file
fails the probe with a non-not-exist error, a present directory makes the
probe succeed — both are rejected); otherwise encode the config and write
it.  Returns the outcome and the resulting filesystem. -/
def RenderConfigToFile (fs : Fs) (filePath : String)
    (config : LocalClusterConfig) : Except RenderError Unit × Fs :=
  match fs filePath with
  | .missing =>
    (.ok (), fun p => if p = filePath then .file (marshalConfig config) else fs p)
  | _ => (.error (.alreadyExists filePath), fs)

/-- `RenderFileToConfig` from `config.go`: read the file (failure if the
path is absent or a directory), unmarshal it, and return the decoded
configuration verbatim. -/
def RenderFileToConfig (fs : Fs) (filePath : String) :
    Except LoadError LocalClusterConfig :=
  match fs filePath with
  | .file y =>
    match unmarshalConfig y with
    | some c => .ok c
    | none => .error (.parseError filePath)
  | _ => .error .readError

/-! ## `InitializeConfiguration`

The Go code iterates the struct's fields by reflection, skipping
non-string fields, and looks each string field up in the explicit
argument map, the environment and the defaults table.  The iteration is
embedded as a fold over an explicit table of (yaml key, getter, setter)
triples, one per string field, in struct-declaration order. -/

/-- One string field of `LocalClusterConfig`: its yaml serialization key
and its accessors. -/
structure FieldDesc where
  key : String
  get : LocalClusterConfig → String
  set : LocalClusterConfig → String → LocalClusterConfig

def fClusterName : FieldDesc :=
  ⟨"ClusterName", (·.ClusterName), fun c v => { c with ClusterName := v }⟩

def fKubeconfigPath : FieldDesc :=
  ⟨"KubeconfigPath", (·.KubeconfigPath), fun c v => { c with KubeconfigPath := v }⟩

def fNodeImage : FieldDesc :=
  ⟨"NodeImage", (·.NodeImage), fun c v => { c with NodeImage := v }⟩

def fProvider : FieldDesc :=
  ⟨"Provider", (·.Provider), fun c v => { c with Provider := v }⟩

def fCni : FieldDesc :=
  ⟨"Cni", (·.Cni), fun c v => { c with Cni := v }⟩

def fPodCidr : FieldDesc :=
  ⟨"PodCidr", (·.PodCidr), fun c v => { c with PodCidr := v }⟩

def fServiceCidr : FieldDesc :=
  ⟨"ServiceCidr", (·.ServiceCidr), fun c v => { c with ServiceCidr := v }⟩

def fTkrLocation : FieldDesc :=
  ⟨"TkrLocation", (·.TkrLocation), fun c v => { c with TkrLocation := v }⟩

def fTty : FieldDesc :=
  ⟨"Tty", (·.Tty), fun c v => { c with Tty := v }⟩

/-- The string fields of `LocalClusterConfig` in declaration order — the
fields the reflection loop does not `continue` over. -/
def stringFields : List FieldDesc :=
  [fClusterName, fKubeconfigPath, fNodeImage, fProvider, fCni,
   fPodCidr, fServiceCidr, fTkrLocation, fTty]

/-- First half of the loop body of `InitializeConfiguration` for one
field: set the field from a non-empty explicit argument (a present but
empty argument falls through), else from a non-empty environment
variable. -/
def overlayEnvArg (commandArgs : String → Option String)
    (env : String → String) (c : LocalClusterConfig) (f : FieldDesc) :
    LocalClusterConfig :=
  match commandArgs f.key with
  | some v =>
    if v ≠ "" then f.set c v
    else if env (fieldNameToEnvName f.key) ≠ "" then
      f.set c (env (fieldNameToEnvName f.key))
    else c
  | none =>
    if env (fieldNameToEnvName f.key) ≠ "" then
      f.set c (env (fieldNameToEnvName f.key))
    else c

/-- Second half of the loop body: if the field still holds `""` and a
default is registered for its yaml name, set the default. -/
def applyDefaultIfEmpty (f : FieldDesc) (c : LocalClusterConfig) :
    LocalClusterConfig :=
  if f.get c = "" then
    match defaultConfigValues f.key with
    | some d => f.set c d
    | none => c
  else c

/-- The loop body of `InitializeConfiguration` for one field. -/
def applyFieldOverlay (commandArgs : String → Option String)
    (env : String → String) (c : LocalClusterConfig) (f : FieldDesc) :
    LocalClusterConfig :=
  applyDefaultIfEmpty f (overlayEnvArg commandArgs env c f)

/-- The full field loop of `InitializeConfiguration`. -/
def overlayLoop (commandArgs : String → Option String)
    (env : String → String) (c : LocalClusterConfig) : LocalClusterConfig :=
  stringFields.foldl (applyFieldOverlay commandArgs env) c

inductive InitError where
  | fileReadError
  | parseError
  | missingClusterName
deriving DecidableEq

/-- The error messages `config.go` itself produces (read and parse
errors carry messages from the OS and the yaml library). -/
def initErrorMessage : InitError → Option String
  | .missingClusterName => some "cluster name must be provided"
  | _ => none

/-- The outcome of `InitializeConfiguration`: a configuration, an error,
or a runtime panic (the nil dereference in `sanatizeKubeconfigPath`). -/
inductive InitResult where
  | ok : LocalClusterConfig → InitResult
  | err : InitError → InitResult
  | panic : InitResult

/-- The config-file baseline step of `InitializeConfiguration`: when the
argument map holds a non-empty `ClusterConfigFile` entry, read that file
and unmarshal it into the fresh config, propagating read and parse
failures; otherwise start from the zero value. -/
def loadBaseline (commandArgs : String → Option String) (fs : Fs) :
    Except InitError LocalClusterConfig :=
  if (commandArgs "ClusterConfigFile").getD "" ≠ "" then
    match fs ((commandArgs "ClusterConfigFile").getD "") with
    | .file y =>
      match unmarshalConfig y with
      | some c => .ok c
      | none => .error .parseError
    | _ => .error .fileReadError
  else .ok emptyConfig

/-- `InitializeConfiguration` from `config.go`: file baseline, overlay
loop, cluster-name check, kubeconfig-path sanitization.  `env` models
`os.Getenv` (absent variables read as `""`), `home` the
`user.Current()` lookup (`none` = lookup error, hence nil `usr`). -/
def InitializeConfiguration (commandArgs : String → Option String)
    (env : String → String) (fs : Fs) (home : Option String) : InitResult :=
  match loadBaseline commandArgs fs with
  | .error e => .err e
  | .ok baseline =>
    let config := overlayLoop commandArgs env baseline
    if config.ClusterName = "" then .err .missingClusterName
    else
      match sanatizeKubeconfigPath home config.KubeconfigPath with
      | none => .panic
      | some p => .ok { config with KubeconfigPath := p }

/-! ## The spec-side description of per-field resolution -/

/-- Written from the spec's words: the value of a field after the three
overriding sources — a non-empty explicit argument wins; otherwise a
non-empty derived environment variable wins; otherwise the baseline
value stands. -/
def specMergedValue (commandArgs : String → Option String)
    (env : String → String) (baselineVal : String) (key : String) : String :=
  if (commandArgs key).getD "" ≠ "" then (commandArgs key).getD ""
  else if env (fieldNameToEnvName key) ≠ "" then env (fieldNameToEnvName key)
  else baselineVal

/-- Written from the spec's words, for comparison with the code's
overlay loop: the three overriding sources, then the registered default,
applied only if the value is still empty. -/
def specResolveField (commandArgs : String → Option String)
    (env : String → String) (baselineVal : String) (key : String) : String :=
  if specMergedValue commandArgs env baselineVal key = "" then
    match defaultConfigValues key with
    | some d => d
    | none => specMergedValue commandArgs env baselineVal key
  else specMergedValue commandArgs env baselineVal key

/-! ## Lemmas about the overlay loop -/

theorem overlayEnvArg_preserves {α : Type} (g : LocalClusterConfig → α)
    (commandArgs : String → Option String) (env : String → String)
    (c : LocalClusterConfig) (f : FieldDesc)
    (h : ∀ c v, g (f.set c v) = g c) :
    g (overlayEnvArg commandArgs env c f) = g c := by
  unfold overlayEnvArg
  cases commandArgs f.key with
  | none => by_cases he : env (fieldNameToEnvName f.key) = "" <;> simp [he, h]
  | some v =>
    by_cases hv : v = "" <;>
      by_cases he : env (fieldNameToEnvName f.key) = "" <;> simp [hv, he, h]

theorem applyDefaultIfEmpty_preserves {α : Type} (g : LocalClusterConfig → α)
    (f : FieldDesc) (c : LocalClusterConfig)
    (h : ∀ c v, g (f.set c v) = g c) :
    g (applyDefaultIfEmpty f c) = g c := by
  unfold applyDefaultIfEmpty
  split_ifs
  · cases defaultConfigValues f.key with
    | none => rfl
    | some d => exact h c d
  · rfl

theorem applyFieldOverlay_preserves {α : Type} (g : LocalClusterConfig → α)
    (commandArgs : String → Option String) (env : String → String)
    (c : LocalClusterConfig) (f : FieldDesc)
    (h : ∀ c v, g (f.set c v) = g c) :
    g (applyFieldOverlay commandArgs env c f) = g c := by
  unfold applyFieldOverlay
  rw [applyDefaultIfEmpty_preserves g f _ h,
    overlayEnvArg_preserves g commandArgs env c f h]

theorem foldl_overlay_preserves {α : Type} (g : LocalClusterConfig → α)
    (commandArgs : String → Option String) (env : String → String)
    (l : List FieldDesc) (h : ∀ f ∈ l, ∀ c v, g (f.set c v) = g c) :
    ∀ c, g (l.foldl (applyFieldOverlay commandArgs env) c) = g c := by
  induction l with
  | nil => intro c; rfl
  | cons f rest ih =>
    intro c
    rw [List.foldl_cons, ih (fun f' hf' => h f' (List.mem_cons_of_mem _ hf')),
      applyFieldOverlay_preserves g commandArgs env c f (h f (List.mem_cons_self _ _))]

theorem overlayEnvArg_get_self (commandArgs : String → Option String)
    (env : String → String) (c : LocalClusterConfig) (f : FieldDesc)
    (hgs : ∀ c v, f.get (f.set c v) = v) :
    f.get (overlayEnvArg commandArgs env c f) =
      specMergedValue commandArgs env (f.get c) f.key := by
  unfold overlayEnvArg specMergedValue
  cases hA : commandArgs f.key with
  | none => by_cases he : env (fieldNameToEnvName f.key) = "" <;> simp [he, hgs]
  | some v =>
    by_cases hv : v = "" <;>
      by_cases he : env (fieldNameToEnvName f.key) = "" <;> simp [hv, he, hgs]

theorem applyDefaultIfEmpty_get_self (f : FieldDesc) (c : LocalClusterConfig)
    (hgs : ∀ c v, f.get (f.set c v) = v) :
    f.get (applyDefaultIfEmpty f c) =
      (if f.get c = "" then
        match defaultConfigValues f.key with
        | some d => d
        | none => f.get c
       else f.get c) := by
  unfold applyDefaultIfEmpty
  split_ifs
  · cases defaultConfigValues f.key with
    | none => rfl
    | some d => exact hgs c d
  · rfl

theorem applyFieldOverlay_get_self (commandArgs : String → Option String)
    (env : String → String) (c : LocalClusterConfig) (f : FieldDesc)
    (hgs : ∀ c v, f.get (f.set c v) = v) :
    f.get (applyFieldOverlay commandArgs env c f) =
      specResolveField commandArgs env (f.get c) f.key := by
  unfold applyFieldOverlay specResolveField
  rw [applyDefaultIfEmpty_get_self f _ hgs,
    overlayEnvArg_get_self commandArgs env c f hgs]

theorem ovPres_ClusterName (commandArgs : String → Option String)
    (env : String → String) (c : LocalClusterConfig) (f : FieldDesc)
    (h : ∀ c v, (f.set c v).ClusterName = c.ClusterName) :
    (applyFieldOverlay commandArgs env c f).ClusterName = c.ClusterName :=
  applyFieldOverlay_preserves (fun x => x.ClusterName) commandArgs env c f h

theorem ovPres_KubeconfigPath (commandArgs : String → Option String)
    (env : String → String) (c : LocalClusterConfig) (f : FieldDesc)
    (h : ∀ c v, (f.set c v).KubeconfigPath = c.KubeconfigPath) :
    (applyFieldOverlay commandArgs env c f).KubeconfigPath = c.KubeconfigPath :=
  applyFieldOverlay_preserves (fun x => x.KubeconfigPath) commandArgs env c f h

theorem ovPres_NodeImage (commandArgs : String → Option String)
    (env : String → String) (c : LocalClusterConfig) (f : FieldDesc)
    (h : ∀ c v, (f.set c v).NodeImage = c.NodeImage) :
    (applyFieldOverlay commandArgs env c f).NodeImage = c.NodeImage :=
  applyFieldOverlay_preserves (fun x => x.NodeImage) commandArgs env c f h

theorem ovPres_Provider (commandArgs : String → Option String)
    (env : String → String) (c : LocalClusterConfig) (f : FieldDesc)
    (h : ∀ c v, (f.set c v).Provider = c.Provider) :
    (applyFieldOverlay commandArgs env c f).Provider = c.Provider :=
  applyFieldOverlay_preserves (fun x => x.Provider) commandArgs env c f h

theorem ovPres_Cni (commandArgs : String → Option String)
    (env : String → String) (c : LocalClusterConfig) (f : FieldDesc)
    (h : ∀ c v, (f.set c v).Cni = c.Cni) :
    (applyFieldOverlay commandArgs env c f).Cni = c.Cni :=
  applyFieldOverlay_preserves (fun x => x.Cni) commandArgs env c f h

theorem ovPres_PodCidr (commandArgs : String → Option String)
    (env : String → String) (c : LocalClusterConfig) (f : FieldDesc)
    (h : ∀ c v, (f.set c v).PodCidr = c.PodCidr) :
    (applyFieldOverlay commandArgs env c f).PodCidr = c.PodCidr :=
  applyFieldOverlay_preserves (fun x => x.PodCidr) commandArgs env c f h

theorem ovPres_ServiceCidr (commandArgs : String → Option String)
    (env : String → String) (c : LocalClusterConfig) (f : FieldDesc)
    (h : ∀ c v, (f.set c v).ServiceCidr = c.ServiceCidr) :
    (applyFieldOverlay commandArgs env c f).ServiceCidr = c.ServiceCidr :=
  applyFieldOverlay_preserves (fun x => x.ServiceCidr) commandArgs env c f h

theorem ovPres_TkrLocation (commandArgs : String → Option String)
    (env : String → String) (c : LocalClusterConfig) (f : FieldDesc)
    (h : ∀ c v, (f.set c v).TkrLocation = c.TkrLocation) :
    (applyFieldOverlay commandArgs env c f).TkrLocation = c.TkrLocation :=
  applyFieldOverlay_preserves (fun x => x.TkrLocation) commandArgs env c f h

theorem ovPres_Tty (commandArgs : String → Option String)
    (env : String → String) (c : LocalClusterConfig) (f : FieldDesc)
    (h : ∀ c v, (f.set c v).Tty = c.Tty) :
    (applyFieldOverlay commandArgs env c f).Tty = c.Tty :=
  applyFieldOverlay_preserves (fun x => x.Tty) commandArgs env c f h

theorem ovSelf_ClusterName (commandArgs : String → Option String)
    (env : String → String) (c : LocalClusterConfig) :
    (applyFieldOverlay commandArgs env c fClusterName).ClusterName =
      specResolveField commandArgs env c.ClusterName "ClusterName" :=
  applyFieldOverlay_get_self commandArgs env c fClusterName (fun _ _ => rfl)

theorem ovSelf_KubeconfigPath (commandArgs : String → Option String)
    (env : String → String) (c : LocalClusterConfig) :
    (applyFieldOverlay commandArgs env c fKubeconfigPath).KubeconfigPath =
      specResolveField commandArgs env c.KubeconfigPath "KubeconfigPath" :=
  applyFieldOverlay_get_self commandArgs env c fKubeconfigPath (fun _ _ => rfl)

theorem ovSelf_NodeImage (commandArgs : String → Option String)
    (env : String → String) (c : LocalClusterConfig) :
    (applyFieldOverlay commandArgs env c fNodeImage).NodeImage =
      specResolveField commandArgs env c.NodeImage "NodeImage" :=
  applyFieldOverlay_get_self commandArgs env c fNodeImage (fun _ _ => rfl)

theorem ovSelf_Provider (commandArgs : String → Option String)
    (env : String → String) (c : LocalClusterConfig) :
    (applyFieldOverlay commandArgs env c fProvider).Provider =
      specResolveField commandArgs env c.Provider "Provider" :=
  applyFieldOverlay_get_self commandArgs env c fProvider (fun _ _ => rfl)

theorem ovSelf_Cni (commandArgs : String → Option String)
    (env : String → String) (c : LocalClusterConfig) :
    (applyFieldOverlay commandArgs env c fCni).Cni =
      specResolveField commandArgs env c.Cni "Cni" :=
  applyFieldOverlay_get_self commandArgs env c fCni (fun _ _ => rfl)

theorem ovSelf_PodCidr (commandArgs : String → Option String)
    (env : String → String) (c : LocalClusterConfig) :
    (applyFieldOverlay commandArgs env c fPodCidr).PodCidr =
      specResolveField commandArgs env c.PodCidr "PodCidr" :=
  applyFieldOverlay_get_self commandArgs env c fPodCidr (fun _ _ => rfl)

theorem ovSelf_ServiceCidr (commandArgs : String → Option String)
    (env : String → String) (c : LocalClusterConfig) :
    (applyFieldOverlay commandArgs env c fServiceCidr).ServiceCidr =
      specResolveField commandArgs env c.ServiceCidr "ServiceCidr" :=
  applyFieldOverlay_get_self commandArgs env c fServiceCidr (fun _ _ => rfl)

theorem ovSelf_TkrLocation (commandArgs : String → Option String)
    (env : String → String) (c : LocalClusterConfig) :
    (applyFieldOverlay commandArgs env c fTkrLocation).TkrLocation =
      specResolveField commandArgs env c.TkrLocation "TkrLocation" :=
  applyFieldOverlay_get_self commandArgs env c fTkrLocation (fun _ _ => rfl)

theorem ovSelf_Tty (commandArgs : String → Option String)
    (env : String → String) (c : LocalClusterConfig) :
    (applyFieldOverlay commandArgs env c fTty).Tty =
      specResolveField commandArgs env c.Tty "Tty" :=
  applyFieldOverlay_get_self commandArgs env c fTty (fun _ _ => rfl)

/-- C1: for every recognized string field, the overlay loop of
`InitializeConfiguration` resolves the field with strict precedence — a
non-empty explicit argument keyed by the field's yaml name wins,
otherwise a non-empty derived environment variable, otherwise the
file-baseline value; the registered default applies only if the value is
still empty after those three sources (`specResolveField` is the spec's
wording of that rule). -/
theorem initialize_precedence (commandArgs : String → Option String)
    (env : String → String) (c : LocalClusterConfig) (f : FieldDesc)
    (hf : f ∈ stringFields) :
    f.get (overlayLoop commandArgs env c) =
      specResolveField commandArgs env (f.get c) f.key := by
  simp only [stringFields, List.mem_cons, List.not_mem_nil, or_false] at hf
  rcases hf with rfl | rfl | rfl | rfl | rfl | rfl | rfl | rfl | rfl
  · dsimp only [fClusterName]
    simp only [overlayLoop, stringFields, List.foldl_cons, List.foldl_nil]
    rw [ovPres_ClusterName _ _ _ fTty (fun _ _ => rfl),
      ovPres_ClusterName _ _ _ fTkrLocation (fun _ _ => rfl),
      ovPres_ClusterName _ _ _ fServiceCidr (fun _ _ => rfl),
      ovPres_ClusterName _ _ _ fPodCidr (fun _ _ => rfl),
      ovPres_ClusterName _ _ _ fCni (fun _ _ => rfl),
      ovPres_ClusterName _ _ _ fProvider (fun _ _ => rfl),
      ovPres_ClusterName _ _ _ fNodeImage (fun _ _ => rfl),
      ovPres_ClusterName _ _ _ fKubeconfigPath (fun _ _ => rfl),
      ovSelf_ClusterName]
  · dsimp only [fKubeconfigPath]
    simp only [overlayLoop, stringFields, List.foldl_cons, List.foldl_nil]
    rw [ovPres_KubeconfigPath _ _ _ fTty (fun _ _ => rfl),
      ovPres_KubeconfigPath _ _ _ fTkrLocation (fun _ _ => rfl),
      ovPres_KubeconfigPath _ _ _ fServiceCidr (fun _ _ => rfl),
      ovPres_KubeconfigPath _ _ _ fPodCidr (fun _ _ => rfl),
      ovPres_KubeconfigPath _ _ _ fCni (fun _ _ => rfl),
      ovPres_KubeconfigPath _ _ _ fProvider (fun _ _ => rfl),
      ovPres_KubeconfigPath _ _ _ fNodeImage (fun _ _ => rfl),
      ovSelf_KubeconfigPath,
      ovPres_KubeconfigPath _ _ _ fClusterName (fun _ _ => rfl)]
  · dsimp only [fNodeImage]
    simp only [overlayLoop, stringFields, List.foldl_cons, List.foldl_nil]
    rw [ovPres_NodeImage _ _ _ fTty (fun _ _ => rfl),
      ovPres_NodeImage _ _ _ fTkrLocation (fun _ _ => rfl),
      ovPres_NodeImage _ _ _ fServiceCidr (fun _ _ => rfl),
      ovPres_NodeImage _ _ _ fPodCidr (fun _ _ => rfl),
      ovPres_NodeImage _ _ _ fCni (fun _ _ => rfl),
      ovPres_NodeImage _ _ _ fProvider (fun _ _ => rfl),
      ovSelf_NodeImage,
      ovPres_NodeImage _ _ _ fKubeconfigPath (fun _ _ => rfl),
      ovPres_NodeImage _ _ _ fClusterName (fun _ _ => rfl)]
  · dsimp only [fProvider]
    simp only [overlayLoop, stringFields, List.foldl_cons, List.foldl_nil]
    rw [ovPres_Provider _ _ _ fTty (fun _ _ => rfl),
      ovPres_Provider _ _ _ fTkrLocation (fun _ _ => rfl),
      ovPres_Provider _ _ _ fServiceCidr (fun _ _ => rfl),
      ovPres_Provider _ _ _ fPodCidr (fun _ _ => rfl),
      ovPres_Provider _ _ _ fCni (fun _ _ => rfl),
      ovSelf_Provider,
      ovPres_Provider _ _ _ fNodeImage (fun _ _ => rfl),
      ovPres_Provider _ _ _ fKubeconfigPath (fun _ _ => rfl),
      ovPres_Provider _ _ _ fClusterName (fun _ _ => rfl)]
  · dsimp only [fCni]
    simp only [overlayLoop, stringFields, List.foldl_cons, List.foldl_nil]
    rw [ovPres_Cni _ _ _ fTty (fun _ _ => rfl),
      ovPres_Cni _ _ _ fTkrLocation (fun _ _ => rfl),
      ovPres_Cni _ _ _ fServiceCidr (fun _ _ => rfl),
      ovPres_Cni _ _ _ fPodCidr (fun _ _ => rfl),
      ovSelf_Cni,
      ovPres_Cni _ _ _ fProvider (fun _ _ => rfl),
      ovPres_Cni _ _ _ fNodeImage (fun _ _ => rfl),
      ovPres_Cni _ _ _ fKubeconfigPath (fun _ _ => rfl),
      ovPres_Cni _ _ _ fClusterName (fun _ _ => rfl)]
  · dsimp only [fPodCidr]
    simp only [overlayLoop, stringFields, List.foldl_cons, List.foldl_nil]
    rw [ovPres_PodCidr _ _ _ fTty (fun _ _ => rfl),
      ovPres_PodCidr _ _ _ fTkrLocation (fun _ _ => rfl),
      ovPres_PodCidr _ _ _ fServiceCidr (fun _ _ => rfl),
      ovSelf_PodCidr,
      ovPres_PodCidr _ _ _ fCni (fun _ _ => rfl),
      ovPres_PodCidr _ _ _ fProvider (fun _ _ => rfl),
      ovPres_PodCidr _ _ _ fNodeImage (fun _ _ => rfl),
      ovPres_PodCidr _ _ _ fKubeconfigPath (fun _ _ => rfl),
      ovPres_PodCidr _ _ _ fClusterName (fun _ _ => rfl)]
  · dsimp only [fServiceCidr]
    simp only [overlayLoop, stringFields, List.foldl_cons, List.foldl_nil]
    rw [ovPres_ServiceCidr _ _ _ fTty (fun _ _ => rfl),
      ovPres_ServiceCidr _ _ _ fTkrLocation (fun _ _ => rfl),
      ovSelf_ServiceCidr,
      ovPres_ServiceCidr _ _ _ fPodCidr (fun _ _ => rfl),
      ovPres_ServiceCidr _ _ _ fCni (fun _ _ => rfl),
      ovPres_ServiceCidr _ _ _ fProvider (fun _ _ => rfl),
      ovPres_ServiceCidr _ _ _ fNodeImage (fun _ _ => rfl),
      ovPres_ServiceCidr _ _ _ fKubeconfigPath (fun _ _ => rfl),
      ovPres_ServiceCidr _ _ _ fClusterName (fun _ _ => rfl)]
  · dsimp only [fTkrLocation]
    simp only [overlayLoop, stringFields, List.foldl_cons, List.foldl_nil]
    rw [ovPres_TkrLocation _ _ _ fTty (fun _ _ => rfl),
      ovSelf_TkrLocation,
      ovPres_TkrLocation _ _ _ fServiceCidr (fun _ _ => rfl),
      ovPres_TkrLocation _ _ _ fPodCidr (fun _ _ => rfl),
      ovPres_TkrLocation _ _ _ fCni (fun _ _ => rfl),
      ovPres_TkrLocation _ _ _ fProvider (fun _ _ => rfl),
      ovPres_TkrLocation _ _ _ fNodeImage (fun _ _ => rfl),
      ovPres_TkrLocation _ _ _ fKubeconfigPath (fun _ _ => rfl),
      ovPres_TkrLocation _ _ _ fClusterName (fun _ _ => rfl)]
  · dsimp only [fTty]
    simp only [overlayLoop, stringFields, List.foldl_cons, List.foldl_nil]
    rw [ovSelf_Tty,
      ovPres_Tty _ _ _ fTkrLocation (fun _ _ => rfl),
      ovPres_Tty _ _ _ fServiceCidr (fun _ _ => rfl),
      ovPres_Tty _ _ _ fPodCidr (fun _ _ => rfl),
      ovPres_Tty _ _ _ fCni (fun _ _ => rfl),
      ovPres_Tty _ _ _ fProvider (fun _ _ => rfl),
      ovPres_Tty _ _ _ fNodeImage (fun _ _ => rfl),
      ovPres_Tty _ _ _ fKubeconfigPath (fun _ _ => rfl),
      ovPres_Tty _ _ _ fClusterName (fun _ _ => rfl)]

/-- Witness for C1 at a concrete field and concrete inputs. -/
theorem initialize_precedence_witness :
    fClusterName ∈ stringFields ∧
    fClusterName.get (overlayLoop (fun _ => none) (fun _ => "") emptyConfig) =
      specResolveField (fun _ => none) (fun _ => "")
        (fClusterName.get emptyConfig) fClusterName.key :=
  ⟨by unfold stringFields; exact List.mem_cons_self _ _,
   initialize_precedence (fun _ => none) (fun _ => "") emptyConfig fClusterName
     (by unfold stringFields; exact List.mem_cons_self _ _)⟩

/-- C9: the overlay loop leaves the provider configuration bag, the CNI
configuration bag and the port-mapping list exactly as the baseline step
produced them, for every environment and every explicit-argument map. -/
theorem overlay_preserves_nonstring_fields (commandArgs : String → Option String)
    (env : String → String) (c : LocalClusterConfig) :
    (overlayLoop commandArgs env c).ProviderConfiguration = c.ProviderConfiguration ∧
    (overlayLoop commandArgs env c).CNIConfiguration = c.CNIConfiguration ∧
    (overlayLoop commandArgs env c).PortsToForward = c.PortsToForward := by
  unfold overlayLoop
  refine ⟨foldl_overlay_preserves (fun x => x.ProviderConfiguration)
      commandArgs env stringFields ?_ c,
    foldl_overlay_preserves (fun x => x.CNIConfiguration)
      commandArgs env stringFields ?_ c,
    foldl_overlay_preserves (fun x => x.PortsToForward)
      commandArgs env stringFields ?_ c⟩ <;>
  · intro f hf
    simp only [stringFields, List.mem_cons, List.not_mem_nil, or_false] at hf
    rcases hf with rfl | rfl | rfl | rfl | rfl | rfl | rfl | rfl | rfl <;>
      exact fun c v => rfl

/-! ## Round-trip of the yaml document encoding -/

theorem decodePortMap_marshal (p : PortMap) :
    decodePortMap (marshalPortMap p) = some p := by
  cases p
  rfl

theorem mapM_decode_marshal (l : List PortMap) :
    (l.map marshalPortMap).mapM decodePortMap = some l := by
  induction l with
  | nil => rfl
  | cons p rest ih =>
    simp only [List.map_cons, List.mapM_cons, decodePortMap_marshal, ih,
      Option.pure_def, Option.bind_eq_bind, Option.some_bind]

theorem unmarshal_marshal (c : LocalClusterConfig) :
    unmarshalConfig (marshalConfig c) = some c := by
  cases c with
  | mk cn kp ni pv pc cni cc pod svc tkr ports tty =>
    have h : List.mapM.loop decodePortMap (List.map marshalPortMap ports) []
        = some ports := mapM_decode_marshal ports
    simp [unmarshalConfig, marshalConfig, yamlLookup, decodeStrField,
      decodeBagField, decodePortsField, h]

/-- C5: rendering a configuration to a path where nothing exists
succeeds, and loading the rendered file back yields a configuration
equal to the original in all recognized fields, the two configuration
bags and the port-mapping list included. -/
theorem render_then_load_roundtrip (fs : Fs) (filePath : String)
    (config : LocalClusterConfig) (h : fs filePath = FsEntry.missing) :
    (RenderConfigToFile fs filePath config).1 = Except.ok () ∧
    RenderFileToConfig (RenderConfigToFile fs filePath config).2 filePath =
      Except.ok config := by
  unfold RenderConfigToFile RenderFileToConfig
  rw [h]
  exact ⟨rfl, by simp [unmarshal_marshal]⟩

/-- Witness for C5 at a concrete path, filesystem and configuration. -/
theorem render_then_load_roundtrip_witness :
    (fun _ => FsEntry.missing : Fs) "cfg.yaml" = FsEntry.missing ∧
    ((RenderConfigToFile (fun _ => FsEntry.missing) "cfg.yaml" emptyConfig).1 =
        Except.ok () ∧
      RenderFileToConfig
        (RenderConfigToFile (fun _ => FsEntry.missing) "cfg.yaml" emptyConfig).2
        "cfg.yaml" = Except.ok emptyConfig) :=
  ⟨rfl, render_then_load_roundtrip (fun _ => FsEntry.missing) "cfg.yaml"
    emptyConfig rfl⟩

/-- C8: rendering to a path where anything exists (file or directory)
returns the already-exists error and leaves the filesystem unmodified. -/
theorem render_refuses_existing (fs : Fs) (filePath : String)
    (config : LocalClusterConfig) (h : fs filePath ≠ FsEntry.missing) :
    (RenderConfigToFile fs filePath config).1 =
      Except.error (RenderError.alreadyExists filePath) ∧
    (RenderConfigToFile fs filePath config).2 = fs := by
  unfold RenderConfigToFile
  cases hE : fs filePath with
  | missing => exact absurd hE h
  | file y => exact ⟨rfl, rfl⟩
  | dir => exact ⟨rfl, rfl⟩

/-- Witness for C8 at a concrete occupied path. -/
theorem render_refuses_existing_witness :
    (fun _ => FsEntry.dir : Fs) "cfg.yaml" ≠ FsEntry.missing ∧
    ((RenderConfigToFile (fun _ => FsEntry.dir) "cfg.yaml" emptyConfig).1 =
        Except.error (RenderError.alreadyExists "cfg.yaml") ∧
      (RenderConfigToFile (fun _ => FsEntry.dir) "cfg.yaml" emptyConfig).2 =
        (fun _ => FsEntry.dir)) :=
  ⟨fun hc => FsEntry.noConfusion hc,
   render_refuses_existing (fun _ => FsEntry.dir) "cfg.yaml" emptyConfig
     (fun hc => FsEntry.noConfusion hc)⟩

/-- C10: loading a file whose contents parse returns the deserialized
configuration verbatim — no defaults, no kubeconfig sanitization, no
cluster-name requirement; in particular a loaded configuration may have
an empty `ClusterName` and empty defaulted fields. -/
theorem load_returns_config_verbatim :
    (∀ (fs : Fs) (filePath : String) (y : Yaml) (c : LocalClusterConfig),
      fs filePath = FsEntry.file y → unmarshalConfig y = some c →
      RenderFileToConfig fs filePath = Except.ok c) ∧
    RenderFileToConfig (fun _ => FsEntry.file (Yaml.map [])) "cfg.yaml" =
      Except.ok emptyConfig ∧
    emptyConfig.ClusterName = "" ∧ emptyConfig.Provider = "" ∧
    emptyConfig.KubeconfigPath = "" := by
  refine ⟨?_, rfl, rfl, rfl, rfl⟩
  intro fs filePath y c hfs hy
  unfold RenderFileToConfig
  rw [hfs]
  dsimp only
  rw [hy]

/-- Witness for C10: a file carrying only a cluster name loads verbatim. -/
theorem load_returns_config_verbatim_witness :
    (fun _ => FsEntry.file (Yaml.map [("ClusterName", Yaml.str "x")]) : Fs) "p" =
      FsEntry.file (Yaml.map [("ClusterName", Yaml.str "x")]) ∧
    unmarshalConfig (Yaml.map [("ClusterName", Yaml.str "x")]) =
      some { emptyConfig with ClusterName := "x" } ∧
    RenderFileToConfig (fun _ => FsEntry.file (Yaml.map [("ClusterName", Yaml.str "x")]))
      "p" = Except.ok { emptyConfig with ClusterName := "x" } :=
  ⟨rfl, rfl,
   load_returns_config_verbatim.1 _ "p" (Yaml.map [("ClusterName", Yaml.str "x")])
     { emptyConfig with ClusterName := "x" } rfl rfl⟩

/-- C2: the code does not fail gracefully — when the current-user lookup
fails (`home = none`), sanitizing a `~/`-prefixed path dereferences the
nil user and panics instead of proceeding with an empty home directory;
the second conjunct shows what the claimed empty-home behavior would
return instead. -/
theorem sanatize_panics_on_failed_user_lookup :
    sanatizeKubeconfigPath none "~/clusters/foo.yaml" = none ∧
    sanatizeKubeconfigPath (some "") "~/clusters/foo.yaml" =
      some "clusters/foo.yaml" := by
  exact ⟨rfl, rfl⟩

/-- C6: the environment-variable derivation on the three documented
serialization keys. -/
theorem fieldNameToEnvName_examples :
    fieldNameToEnvName "PodCidr" = "TANZU_POD_CIDR" ∧
    fieldNameToEnvName "ClusterName" = "TANZU_CLUSTER_NAME" ∧
    fieldNameToEnvName "Provider" = "TANZU_PROVIDER" := by
  exact ⟨rfl, rfl, rfl⟩

/-- C7 counterexample: a non-tilde path is not always passed through
unchanged — `filepath.Join` cleans it, so `"a//b"` comes back `"a/b"`. -/
theorem sanatize_changes_unclean_path :
    sanatizeKubeconfigPath (some "/home/user") "a//b" = some "a/b" ∧
    ("a/b" : String) ≠ "a//b" := by
  exact ⟨rfl, by decide⟩

/-- C7 amended: with a successful home lookup, a path starting with
`~/` becomes the home directory joined with the remainder, and any other
path is passed through Go path cleaning (`filepath.Join` with the empty
builder), which leaves already-clean paths such as `/abs/path.yaml`
unchanged. -/
theorem sanatize_spec_behavior (home path : String) (rest : List Char) :
    (path.data = '~' :: '/' :: rest →
      sanatizeKubeconfigPath (some home) path =
        some (filepathJoin (filepathJoin "" home) rest.asString)) ∧
    (path.data.take 2 ≠ ['~', '/'] →
      sanatizeKubeconfigPath (some home) path = some (filepathJoin "" path)) ∧
    sanatizeKubeconfigPath (some "/home/user") "~/clusters/foo.yaml" =
      some "/home/user/clusters/foo.yaml" ∧
    sanatizeKubeconfigPath (some home) "/abs/path.yaml" =
      some "/abs/path.yaml" := by
  refine ⟨?_, ?_, rfl, rfl⟩
  · intro h
    unfold sanatizeKubeconfigPath
    rw [h]
    rfl
  · intro h
    unfold sanatizeKubeconfigPath
    split
    · rename_i heq
      rw [heq] at h
      simp at h
    · rfl

/-- Witness for C7's amended statement at concrete inputs. -/
theorem sanatize_spec_behavior_witness :
    "~/clusters/foo.yaml".data = '~' :: '/' :: "clusters/foo.yaml".data ∧
    sanatizeKubeconfigPath (some "/home/user") "~/clusters/foo.yaml" =
      some (filepathJoin (filepathJoin "" "/home/user")
        ("clusters/foo.yaml".data.asString)) :=
  ⟨rfl,
   (sanatize_spec_behavior "/home/user" "~/clusters/foo.yaml"
     "clusters/foo.yaml".data).1 rfl⟩

/-- C3: with no config file, no environment variables and only a
non-empty cluster name among the explicit arguments, resolution succeeds
and returns exactly the defaults — provider `kind`, cni `antrea`, pod
CIDR `10.244.0.0/16`, service CIDR `10.96.0.0/16`, tty `"true"`, the
fixed TKR image — with every other field empty. -/
theorem initialize_defaults_with_only_cluster_name (fs : Fs)
    (home : Option String) (name : String) (hname : name ≠ "") :
    InitializeConfiguration
      (fun k => if k = "ClusterName" then some name else none)
      (fun _ => "") fs home =
      InitResult.ok ⟨name, "", "", "kind", [], "antrea", [],
        "10.244.0.0/16", "10.96.0.0/16",
        "projects.registry.vmware.com/tce/tkr:v1.21.5", [], "true"⟩ := by
  simp [InitializeConfiguration, loadBaseline, overlayLoop, stringFields,
    applyFieldOverlay, overlayEnvArg, applyDefaultIfEmpty, defaultConfigValues,
    fClusterName, fKubeconfigPath, fNodeImage, fProvider, fCni, fPodCidr,
    fServiceCidr, fTkrLocation, fTty, emptyConfig, sanatizeKubeconfigPath,
    filepathJoin, hname]

/-- Witness for C3 at a concrete cluster name. -/
theorem initialize_defaults_with_only_cluster_name_witness :
    ("test" : String) ≠ "" ∧
    InitializeConfiguration
      (fun k => if k = "ClusterName" then some "test" else none)
      (fun _ => "") (fun _ => FsEntry.missing) none =
      InitResult.ok ⟨"test", "", "", "kind", [], "antrea", [],
        "10.244.0.0/16", "10.96.0.0/16",
        "projects.registry.vmware.com/tce/tkr:v1.21.5", [], "true"⟩ :=
  ⟨by decide,
   initialize_defaults_with_only_cluster_name (fun _ => FsEntry.missing) none
     "test" (by decide)⟩

/-- C4: when the merged cluster name is empty the resolver returns the
missing-cluster-name error (whose message is "cluster name must be
provided") and no configuration; consequently every successfully
returned configuration has a non-empty cluster name. -/
theorem initialize_requires_cluster_name (commandArgs : String → Option String)
    (env : String → String) (fs : Fs) (home : Option String) :
    (∀ c₀, loadBaseline commandArgs fs = Except.ok c₀ →
      (overlayLoop commandArgs env c₀).ClusterName = "" →
      InitializeConfiguration commandArgs env fs home =
        InitResult.err InitError.missingClusterName) ∧
    (∀ c, InitializeConfiguration commandArgs env fs home = InitResult.ok c →
      c.ClusterName ≠ "") ∧
    initErrorMessage InitError.missingClusterName =
      some "cluster name must be provided" := by
  refine ⟨?_, ?_, rfl⟩
  · intro c₀ h0 hname
    unfold InitializeConfiguration
    rw [h0]
    dsimp only
    rw [if_pos hname]
  · intro c hc
    unfold InitializeConfiguration at hc
    cases hL : loadBaseline commandArgs fs with
    | error e => rw [hL] at hc; exact absurd hc (by simp)
    | ok c₀ =>
      rw [hL] at hc
      dsimp only at hc
      by_cases hname : (overlayLoop commandArgs env c₀).ClusterName = ""
      · rw [if_pos hname] at hc
        exact absurd hc (by simp)
      · rw [if_neg hname] at hc
        cases hS : sanatizeKubeconfigPath home
            (overlayLoop commandArgs env c₀).KubeconfigPath with
        | none => rw [hS] at hc; exact absurd hc (by simp)
        | some p =>
          rw [hS] at hc
          dsimp only at hc
          injection hc with hc'
          rw [← hc']
          exact hname

/-- Witness for C4: empty arguments and environment yield the
missing-cluster-name error. -/
theorem initialize_requires_cluster_name_witness :
    loadBaseline (fun _ => none) (fun _ => FsEntry.missing) =
      Except.ok emptyConfig ∧
    (overlayLoop (fun _ => none) (fun _ => "") emptyConfig).ClusterName = "" ∧
    InitializeConfiguration (fun _ => none) (fun _ => "")
      (fun _ => FsEntry.missing) none =
      InitResult.err InitError.missingClusterName :=
  ⟨rfl, rfl,
   (initialize_requires_cluster_name (fun _ => none) (fun _ => "")
     (fun _ => FsEntry.missing) none).1 emptyConfig rfl rfl⟩

end StandaloneConfig
